import Mathlib

/-!
Verification of the permit-cli environment-export pipeline.

This file shallowly embeds the export subsystem of the repository:
the identifier sanitizer `createSafeId` and the orchestrating
`exportConfig` from `src/source/commands/env/export.tsx`, the
`UserAttributesGenerator`, the `RoleDerivationGenerator`, the
`UserSetGenerator` and the two `ConditionSetGenerator` variants.
JavaScript strings are Lean `String`s, optional/possibly-absent fields
are `Option`, thrown exceptions are `Except String`, and the remote API
is an explicit record of endpoint results.  Theorems at the end settle
the behavioural claims about the pipeline.
-/

namespace PermitCli

/-- JavaScript truthiness of an optional string value:
`undefined`/`null` and the empty string are falsy. -/
def truthyO : Option String → Bool
  | none => false
  | some s => s != ""

/-- JS template-literal rendering of an optional string
(`undefined` prints as "undefined"). -/
def optStr : Option String → String
  | none => "undefined"
  | some s => s

/-- List-of-chars version of `startsWith` (first argument is the pattern). -/
def startsWithChars : List Char → List Char → Bool
  | [], _ => true
  | _ :: _, [] => false
  | a :: as, b :: bs => a == b && startsWithChars as bs

/-- Does the pattern occur as a contiguous run of the second list?
Models JS `String.prototype.includes` at the character level. -/
def containsChars (needle : List Char) : List Char → Bool
  | [] => startsWithChars needle []
  | b :: bs => startsWithChars needle (b :: bs) || containsChars needle bs

/-- JS `hay.includes(needle)`. -/
def containsSub (hay needle : String) : Bool :=
  containsChars needle.data hay.data

/-- JS `s.startsWith(p)`. -/
def strStartsWith (s p : String) : Bool :=
  startsWithChars p.data s.data

/-- One character of the regex replacement `[^a-zA-Z0-9_]` → `_`. -/
def sanitizeChar (c : Char) : Char :=
  if c.isAlphanum || c == '_' then c else '_'

/-- `str.replace(/[^a-zA-Z0-9_]/g, '_')`, applied character-wise. -/
def replaceUnsafe (s : String) : String :=
  ⟨s.data.map sanitizeChar⟩

/-- ASCII lowering of every character; models JS `toLowerCase()` on the
ASCII strings this code applies it to. -/
def lowerAscii (s : String) : String :=
  ⟨s.data.map Char.toLower⟩

/-- JS `Array.prototype.join('_')`. -/
def joinUnderscore : List String → String
  | [] => ""
  | [p] => p
  | p :: q :: rest => p ++ "_" ++ joinUnderscore (q :: rest)

/-- JS `Array.prototype.join('')` / string concatenation of fragments. -/
def joinAll : List String → String
  | [] => ""
  | p :: rest => p ++ joinAll rest

/-- `createSafeId(...parts)` from `src/source/commands/env/export.tsx`
lines 43–48: replace every character outside `[a-zA-Z0-9_]` with `_`
in each part, drop the parts that became empty (`filter(Boolean)`),
and join the rest with `_`. -/
def createSafeId (parts : List String) : String :=
  joinUnderscore ((parts.map replaceUnsafe).filter (· != ""))

/-- The per-string sanitizer of `RoleDerivationGenerator.createDerivationId`
(`src/source/commands/env/template/apply.tsx` lines 234–235):
`str.replace(/[^a-zA-Z0-9_]/g, '_').toLowerCase()`. -/
def sanitizeId (s : String) : String :=
  lowerAscii (replaceUnsafe s)

/-- `RoleDerivationGenerator.createDerivationId` (apply.tsx lines 233–237). -/
def createDerivationId (sourceRole targetRole : String) : String :=
  sanitizeId sourceRole ++ "_to_" ++ sanitizeId targetRole

/-- JS `Array.prototype.join(',')`. -/
def joinComma : List String → String
  | [] => ""
  | [p] => p
  | p :: q :: rest => p ++ "," ++ joinComma (q :: rest)

/-- `JSON.stringify` of a list of strings (quote escaping inside the
strings is not modelled; no claim depends on it). -/
def jsonStringList (l : List String) : String :=
  "[" ++ joinComma (l.map (fun s => "\"" ++ s ++ "\"")) ++ "]"

/-- `o || 'unknown'` on an optional string field. -/
def orUnknown : Option String → String
  | none => "unknown"
  | some s => if s != "" then s else "unknown"

/-- An optional line fragment: JS `cond ? text : ''` for an optional field. -/
def optFragment (pre : String) (o : Option String) (post : String) : String :=
  if truthyO o then pre ++ o.getD "" ++ post else ""

structure ActionData where
  name : String
  description : Option String
deriving DecidableEq

structure AttributeData where
  type : String
  description : Option String
deriving DecidableEq

structure Resource where
  key : String
  name : String
  description : Option String
  urn : Option String
  actions : List (String × ActionData)
  attributes : List (String × AttributeData)
deriving DecidableEq

structure Relation where
  key : String
  name : String
  object_resource : String
  description : Option String
deriving DecidableEq

/-- A role as consumed by export.tsx.  The source field `extends` is a Lean
keyword and is embedded as `role_extends`. -/
structure Role where
  key : String
  name : String
  description : Option String
  permissions : List String
  role_extends : List String
deriving DecidableEq

structure UserAttr where
  key : String
  type : String
  description : Option String
deriving DecidableEq

/-- A condition-set record.  Fields the code tests for JS truthiness are
`Option String` (`none` = absent; `some ""` is falsy too).  `conditions`
holds the JSON-serialized condition expression. -/
structure ConditionSet where
  key : Option String
  name : Option String
  type : String
  description : Option String
  conditions : Option String
  resource_id : Option String
deriving DecidableEq

structure CSRule where
  user_set : Option String
  permission : Option String
  resource_set : Option String
deriving DecidableEq

structure Scope where
  environment_id : Option String
  project_id : Option String
  organization_id : Option String
deriving DecidableEq

structure ValidationResult where
  valid : Bool
  error : Option String
  scope : Option Scope
deriving DecidableEq

/-- The remote API as seen by one export run: each endpoint either returns
its records or throws (modelled as `Except.error` with the message the JS
template literal would render). -/
structure PermitApi where
  resourcesList : Except String (List Resource)
  resourceRelationsList : String → Except String (List Relation)
  rolesList : Except String (List Role)
  resourceAttributesList : String → Except String (List UserAttr)
  conditionSetsList : Except String (List ConditionSet)
  conditionSetRulesList : Except String (List CSRule)

/-- Final run state of `exportConfig`: either the error state (message and
the warnings accumulated before the failure) or completion (artifact text
and warnings). -/
inductive ExportResult where
  | error (msg : String) (warnings : List String)
  | complete (hcl : String) (warnings : List String)
deriving DecidableEq

/-- `key = apiKey || authToken` (export.tsx line 60). -/
def pickKey (apiKey authToken : Option String) : Option String :=
  if truthyO apiKey then apiKey else authToken

/-- Everything of the fixed artifact header up to (and excluding) the
interpolated `api_key` credential (export.tsx lines 110–125). -/
def headerPre (scope : Option Scope) : String :=
  "# Generated by Permit CLI\n# Environment: " ++
    orUnknown (scope.bind Scope.environment_id) ++
  "\n# Project: " ++ orUnknown (scope.bind Scope.project_id) ++
  "\n# Organization: " ++ orUnknown (scope.bind Scope.organization_id) ++
  "\n\nterraform \x7b\n  required_providers \x7b\n    permitio = \x7b\n      source = \"permitio/permit-io\"\n      version = \"~> 0.1.0\"\n    \x7d\n  \x7d\n\x7d\n\nprovider \"permitio\" \x7b\n  api_key = \""

/-- The fixed top-of-file header, with the credential embedded verbatim as
the provider's `api_key` (export.tsx lines 110–126). -/
def header (key : String) (scope : Option Scope) : String :=
  headerPre scope ++ key ++ "\"\n\x7d\n"

def renderAction (p : String × ActionData) : String :=
  "\n    \"" ++ p.1 ++ "\" = \x7b\n      name = \"" ++ p.2.name ++ "\"" ++
  optFragment "\n      description = \"" p.2.description "\"" ++ "\n    \x7d"

def renderAttr (p : String × AttributeData) : String :=
  "\n    \"" ++ p.1 ++ "\" = \x7b\n      type = \"" ++ p.2.type ++ "\"" ++
  optFragment "\n      description = \"" p.2.description "\"" ++ "\n    \x7d"

/-- One `permitio_resource` block (export.tsx lines 137–182). -/
def renderResource (r : Resource) : String :=
  "resource \"permitio_resource\" \"" ++ createSafeId [r.key] ++
  "\" \x7b\n  key  = \"" ++ r.key ++ "\"\n  name = \"" ++ r.name ++ "\"" ++
  optFragment "\n  description = \"" r.description "\"" ++
  optFragment "\n  urn = \"" r.urn "\"" ++
  "\n  actions = \x7b" ++ joinAll (r.actions.map renderAction) ++ "\n  \x7d" ++
  (if r.attributes.length > 0 then
    "\n  attributes = \x7b" ++ joinAll (r.attributes.map renderAttr) ++ "\n  \x7d"
   else "") ++
  "\n\x7d\n"

/-- `resources.filter(resource => resource.key !== '__user')`
(export.tsx lines 131–133). -/
def validResources (resources : List Resource) : List Resource :=
  resources.filter (fun r => r.key != "__user")

/-- The `# Resources` section (export.tsx lines 134–184). -/
def resourcesSection (resources : List Resource) : String :=
  if (validResources resources).length > 0 then
    "\n# Resources\n" ++ joinAll ((validResources resources).map renderResource)
  else ""

/-- One `permitio_relation` block (export.tsx lines 200–210). -/
def renderRelation (r : Resource) (rel : Relation) : String :=
  "resource \"permitio_relation\" \"" ++ createSafeId [r.key, rel.key] ++
  "\" \x7b\n  key = \"" ++ rel.key ++ "\"\n  name = \"" ++ rel.name ++
  "\"\n  subject_resource = \"" ++ r.key ++
  "\"\n  object_resource = \"" ++ rel.object_resource ++ "\"" ++
  optFragment "\n  description = \"" rel.description "\"" ++
  "\n\x7d\n"

def renderRelationsFor (r : Resource) (rels : List Relation) : String :=
  if rels.length > 0 then
    "\n# Resource Relations for " ++ r.key ++ "\n" ++
      joinAll (rels.map (renderRelation r))
  else ""

/-- The relations loop (export.tsx lines 191–216).  The try/catch wraps the
whole loop: the first failing per-resource listing appends one warning and
abandons the remaining resources, keeping what was already rendered. -/
def relationsLoop (relList : String → Except String (List Relation)) :
    List Resource → String × List String
  | [] => ("", [])
  | r :: rest =>
    match relList r.key with
    | .error e => ("", ["Failed to export resource relations: " ++ e])
    | .ok rels =>
      let p := relationsLoop relList rest
      (renderRelationsFor r rels ++ p.1, p.2)

/-- One `permitio_role` block (export.tsx lines 225–243). -/
def renderRole (role : Role) : String :=
  "resource \"permitio_role\" \"" ++ createSafeId [role.key] ++
  "\" \x7b\n  key  = \"" ++ role.key ++ "\"\n  name = \"" ++ role.name ++ "\"" ++
  optFragment "\n  description = \"" role.description "\"" ++
  (if role.permissions.length > 0 then
    "\n  permissions = " ++ jsonStringList role.permissions
   else "") ++
  (if role.role_extends.length > 0 then
    "\n  extends = " ++ jsonStringList role.role_extends
   else "") ++
  "\n\x7d\n"

/-- The `# Roles` phase (export.tsx lines 219–248), try/catch included. -/
def rolesSection (rolesList : Except String (List Role)) : String × List String :=
  match rolesList with
  | .error e => ("", ["Failed to export roles: " ++ e])
  | .ok roles =>
    (if roles.length > 0 then "\n# Roles\n" ++ joinAll (roles.map renderRole)
     else "", [])

/-- One `permitio_user_attribute` block (export.tsx lines 259–267). -/
def renderUserAttr (attr : UserAttr) : String :=
  "resource \"permitio_user_attribute\" \"" ++ createSafeId [attr.key] ++
  "\" \x7b\n  key = \"" ++ attr.key ++ "\"\n  type = \"" ++ attr.type ++ "\"" ++
  optFragment "\n  description = \"" attr.description "\"" ++
  "\n\x7d\n"

/-- The `# User Attributes` phase of export.tsx (lines 251–272), which lists
the `__user` resource's attributes, try/catch included. -/
def userAttributesSection (attrsList : Except String (List UserAttr)) :
    String × List String :=
  match attrsList with
  | .error e => ("", ["Failed to export user attributes: " ++ e])
  | .ok attrs =>
    (if attrs.length > 0 then
      "\n# User Attributes\n" ++ joinAll (attrs.map renderUserAttr)
     else "", [])

def jsonField (nm : String) : Option String → List String
  | none => []
  | some v => ["\"" ++ nm ++ "\":\"" ++ v ++ "\""]

/-- Model of `JSON.stringify(set)` inside a warning message (undefined
fields dropped; the serialized conditions embedded raw).  No claim depends
on the exact text, only on the warning count. -/
def jsonStringifySet (s : ConditionSet) : String :=
  "\x7b" ++ joinComma
    (jsonField "key" s.key ++ jsonField "name" s.name ++
     ["\"type\":\"" ++ s.type ++ "\""] ++
     jsonField "description" s.description ++
     (match s.conditions with
      | none => []
      | some c => ["\"conditions\":" ++ c]) ++
     jsonField "resource_id" s.resource_id) ++ "\x7d"

/-- Model of `JSON.stringify(rule)` inside a warning message. -/
def jsonStringifyRule (r : CSRule) : String :=
  "\x7b" ++ joinComma
    (jsonField "user_set" r.user_set ++ jsonField "permission" r.permission ++
     jsonField "resource_set" r.resource_set) ++ "\x7d"

/-- One `permitio_user_set` block (export.tsx lines 288–297). -/
def renderUserSet (s : ConditionSet) : String :=
  "resource \"permitio_user_set\" \"" ++ createSafeId [s.key.getD ""] ++
  "\" \x7b\n  key = \"" ++ s.key.getD "" ++ "\"\n  name = \"" ++ s.name.getD "" ++ "\"" ++
  optFragment "\n  description = \"" s.description "\"" ++
  "\n  conditions = jsonencode(" ++
    (match s.conditions with | some c => c | none => "\x7b\x7d") ++
  ")\n\x7d\n"

/-- `set.key` and `set.name` must be truthy (export.tsx line 284). -/
def userSetValid (s : ConditionSet) : Bool :=
  truthyO s.key && truthyO s.name

/-- The user-set loop (export.tsx lines 283–298): an invalid record appends
one warning and is skipped, a valid one is rendered once. -/
def userSetsProcess : List ConditionSet → List String × List String
  | [] => ([], [])
  | s :: rest =>
    let p := userSetsProcess rest
    if userSetValid s then (renderUserSet s :: p.1, p.2)
    else (p.1, ("Invalid user set data: " ++ jsonStringifySet s) :: p.2)

/-- One `permitio_resource_set` block (export.tsx lines 312–322). -/
def renderResourceSet (s : ConditionSet) : String :=
  "resource \"permitio_resource_set\" \"" ++ createSafeId [s.key.getD ""] ++
  "\" \x7b\n  key = \"" ++ s.key.getD "" ++ "\"\n  name = \"" ++ s.name.getD "" ++ "\"" ++
  optFragment "\n  description = \"" s.description "\"" ++
  "\n  resource = \"" ++ s.resource_id.getD "" ++
  "\"\n  conditions = jsonencode(" ++
    (match s.conditions with | some c => c | none => "\x7b\x7d") ++
  ")\n\x7d\n"

/-- `set.key`, `set.name` and `set.resource_id` must be truthy
(export.tsx line 308). -/
def resourceSetValid (s : ConditionSet) : Bool :=
  truthyO s.key && truthyO s.name && truthyO s.resource_id

/-- The resource-set loop (export.tsx lines 307–323). -/
def resourceSetsProcess : List ConditionSet → List String × List String
  | [] => ([], [])
  | s :: rest =>
    let p := resourceSetsProcess rest
    if resourceSetValid s then (renderResourceSet s :: p.1, p.2)
    else (p.1, ("Invalid resource set data: " ++ jsonStringifySet s) :: p.2)

/-- One `permitio_condition_set_rule` block (export.tsx lines 351–355). -/
def renderCSRule (r : CSRule) : String :=
  "resource \"permitio_condition_set_rule\" \"" ++
  createSafeId [r.user_set.getD "", r.permission.getD "", r.resource_set.getD ""] ++
  "\" \x7b\n  user_set = \"" ++ r.user_set.getD "" ++
  "\"\n  permission = \"" ++ r.permission.getD "" ++
  "\"\n  resource_set = \"" ++ r.resource_set.getD "" ++ "\"\n\x7d\n"

def csRuleValid (r : CSRule) : Bool :=
  truthyO r.user_set && truthyO r.permission && truthyO r.resource_set

/-- The condition-set-rule loop (export.tsx lines 339–356). -/
def rulesProcess : List CSRule → List String × List String
  | [] => ([], [])
  | r :: rest =>
    let p := rulesProcess rest
    if csRuleValid r then (renderCSRule r :: p.1, p.2)
    else (p.1, ("Invalid condition set rule: " ++ jsonStringifyRule r) :: p.2)

/-- The condition-sets phase of export.tsx (lines 275–360): user sets,
resource sets, then the rule listing, all inside one try/catch.  A failing
rule listing keeps the already-rendered set fragments and appends the
section's catch-all warning. -/
def conditionSetsSection (csList : Except String (List ConditionSet))
    (csrList : Except String (List CSRule)) : String × List String :=
  match csList with
  | .error e => ("", ["Failed to export condition sets: " ++ e])
  | .ok sets =>
    let userSets := sets.filter (fun s => s.type == "userset")
    let up := userSetsProcess userSets
    let uhcl := if userSets.length > 0 then "\n# User Sets\n" ++ joinAll up.1 else ""
    let resourceSets := sets.filter (fun s => s.type == "resourceset")
    let rp := resourceSetsProcess resourceSets
    let rhcl := if resourceSets.length > 0 then "\n# Resource Sets\n" ++ joinAll rp.1 else ""
    match csrList with
    | .error e => (uhcl ++ rhcl, up.2 ++ rp.2 ++ ["Failed to export condition sets: " ++ e])
    | .ok rules =>
      let cp := rulesProcess rules
      let chcl := if rules.length > 0 then "\n# Condition Set Rules\n" ++ joinAll cp.1 else ""
      (uhcl ++ rhcl ++ chcl, up.2 ++ rp.2 ++ cp.2)

/-- The artifact text accumulated by a run that got past the Resources
listing: header, then each phase's fragment in the fixed order
(export.tsx lines 110–360). -/
def exportHcl (k : String) (scope : Option Scope) (api : PermitApi)
    (resources : List Resource) : String :=
  header k scope ++ resourcesSection resources ++
  (relationsLoop api.resourceRelationsList (validResources resources)).1 ++
  (rolesSection api.rolesList).1 ++
  (userAttributesSection (api.resourceAttributesList "__user")).1 ++
  (conditionSetsSection api.conditionSetsList api.conditionSetRulesList).1

/-- The warnings accumulated by the same run, in phase order. -/
def exportWarnings (api : PermitApi) (resources : List Resource) : List String :=
  (relationsLoop api.resourceRelationsList (validResources resources)).2 ++
  (rolesSection api.rolesList).2 ++
  (userAttributesSection (api.resourceAttributesList "__user")).2 ++
  (conditionSetsSection api.conditionSetsList api.conditionSetRulesList).2

/-- The `exportConfig` run of `src/source/commands/env/export.tsx`
(lines 73–383).  Credential resolution and scope validation gate the run;
the Resources listing sits directly under the outer try/catch (no local
catch), the later phases each convert their own failures to warnings; the
sink write is the final possible error. -/
def exportConfig (apiKey authToken : Option String)
    (validateApiKeyScope : String → ValidationResult)
    (api : PermitApi) (file : Option String)
    (writeFile : String → String → Except String Unit) : ExportResult :=
  let key := pickKey apiKey authToken
  if !truthyO key then
    .error "No API key provided. Please provide a key or login first." []
  else
    let k := key.getD ""
    let v := validateApiKeyScope k
    if !v.valid || truthyO v.error then
      .error ("Invalid API key: " ++ optStr v.error) []
    else
      match api.resourcesList with
      | .error e => .error ("Failed to export configuration: " ++ e) []
      | .ok resources =>
        let hcl := exportHcl k v.scope api resources
        let warnings := exportWarnings api resources
        if truthyO file then
          match writeFile (file.getD "") hcl with
          | .error e => .error ("Failed to export configuration: " ++ e) warnings
          | .ok _ => .complete hcl warnings
        else
          .complete hcl warnings

/-- JS `String.prototype.trim()`. -/
def strTrim (s : String) : String :=
  ⟨((s.data.dropWhile Char.isWhitespace).reverse.dropWhile Char.isWhitespace).reverse⟩

namespace UserAttributesGenerator

/-- Built-in attributes excluded from export
(`UserAttributesGenerator.ts` lines 11–17). -/
def BUILTIN_USER_ATTRIBUTES : List String :=
  ["key", "roles", "email", "first_name", "last_name"]

structure UserAttributeData where
  resourceKey : String
  key : String
  type : String
  description : String
deriving DecidableEq

/-- `generateResourceKey` (lines 106–108):
`user_` + `key.toLowerCase().replace(/[^a-z0-9_]/g, '_')`. -/
def generateResourceKey (key : String) : String :=
  "user_" ++
    (⟨(lowerAscii key).data.map
        (fun c => if c.isLower || c.isDigit || c == '_' then c else '_')⟩ : String)

/-- The `typeMap` record lookup of `normalizeAttributeType` (lines 111–120). -/
def typeMap (t : String) : Option String :=
  if t == "string" then some "string"
  else if t == "number" then some "number"
  else if t == "boolean" then some "bool"
  else if t == "bool" then some "bool"
  else if t == "array" then some "array"
  else if t == "object" then some "json"
  else if t == "json" then some "json"
  else if t == "time" then some "string"
  else none

/-- `normalizeAttributeType` (lines 110–129): the normalized type together
with the warning it appends for an unknown type. -/
def normalizeAttributeType (type : String) : String × List String :=
  match typeMap (lowerAscii type) with
  | some nt => (nt, [])
  | none =>
    ("string", ["Unknown attribute type: " ++ type ++ ", using 'string' as default"])

/-- The description filter (lines 82–88): the lowercased description must
not contain either built-in marker. -/
def descriptionMarksBuiltin (d : Option String) : Bool :=
  let s := lowerAscii (d.getD "")
  containsSub s "built in attribute" || containsSub s "built-in attribute"

/-- The two `.filter` stages (lines 80–88): drop built-in keys and
built-in-marked descriptions. -/
def keepAttr (p : String × AttributeData) : Bool :=
  !(BUILTIN_USER_ATTRIBUTES.contains p.1) &&
  !(descriptionMarksBuiltin p.2.description)

/-- The `.map` stage (lines 89–94). -/
def mkAttrData (p : String × AttributeData) : UserAttributeData :=
  { resourceKey := generateResourceKey p.1
    key := p.1
    type := (normalizeAttributeType p.2.type).1
    description := p.2.description.getD "" }

/-- The filter–filter–map chain over `Object.entries(userResource.attributes)`
(lines 77–95), with the warnings `normalizeAttributeType` appends along the way. -/
def processUserAttributes :
    List (String × AttributeData) → List UserAttributeData × List String
  | [] => ([], [])
  | p :: rest =>
    if keepAttr p then
      let r := processUserAttributes rest
      (mkAttrData p :: r.1, (normalizeAttributeType p.2.type).2 ++ r.2)
    else processUserAttributes rest

/-- `getUserAttributes` (lines 70–104): fetch the `__user` pseudo-resource,
process its attribute map; a fetch error appends a warning and rethrows. -/
def getUserAttributes (resourcesGet : String → Except String Resource) :
    Except String (List UserAttributeData) × List String :=
  match resourcesGet "__user" with
  | .error e => (.error e, ["Error fetching user attributes: " ++ e])
  | .ok userResource =>
    let r := processUserAttributes userResource.attributes
    (.ok r.1, r.2)

/-- `generateHCL` (lines 131–151).  The Handlebars template file is not in
the sources; it is a parameter here. -/
def generateHCL (template : List UserAttributeData → String)
    (resourcesGet : String → Except String Resource) : String × List String :=
  match getUserAttributes resourcesGet with
  | (.error e, w) => ("", w ++ ["Failed to export user attributes: " ++ e])
  | (.ok attributes, w) =>
    if attributes.length == 0 then ("", w)
    else
      let content := template attributes
      if strTrim content == "" then
        ("", w ++ ["Failed to export user attributes: Generated HCL content is empty"])
      else ("\n# User Attributes\n" ++ content, w)

end UserAttributesGenerator

namespace RoleDerivationGenerator

structure GrantInfo where
  role : Option String
  on_resource : Option String
  linked_by_relation : Option String
deriving DecidableEq

/-- A resource role as consumed by the generator; the optional chain
`role.granted_to?.users_with_role` is flattened to a list ([] when the
chain is absent — both are falsy at the only use site, apply.tsx line 248). -/
structure ResourceRole where
  key : Option String
  granted_to_users_with_role : List GrantInfo
deriving DecidableEq

structure RelationRead where
  key : Option String
  subject_resource : Option String
  object_resource : Option String
deriving DecidableEq

structure ResourceData where
  roles : List ResourceRole
  relations : List RelationRead
deriving DecidableEq

/-- An entry of `getAllResourceRelations` (apply.tsx lines 168–192).  The
pushed record's `sourceResourceKey`/`targetResourceKey` are the relation's
own `subject_resource`/`object_resource` (lines 181–185), so only those
and the relation key need carrying; `generateTerraformRelationName`
(lines 194–204) is `sourceResourceKey_targetResourceKey` on these entries
and its throwing branch is unreachable (the fields were checked truthy). -/
structure ResourceRelation where
  sourceResourceKey : String
  targetResourceKey : String
  relationKey : String
deriving DecidableEq

structure TerraformRelationMapping where
  relationKey : String
  sourceResource : String
  targetResource : String
  terraformResourceName : String
deriving DecidableEq

structure RoleDerivationData where
  id : String
  resource : String
  role : String
  linked_by : String
  on_resource : String
  to_role : String
  dependencies : List String
deriving DecidableEq

/-- `getAllResourceRelations` (apply.tsx lines 168–192). -/
def getAllResourceRelations (resourceMap : List (String × ResourceData)) :
    List ResourceRelation :=
  ((resourceMap.map (fun p => p.2.relations)).flatten).filterMap (fun rel =>
    if truthyO rel.key && truthyO rel.subject_resource && truthyO rel.object_resource then
      some { sourceResourceKey := rel.subject_resource.getD ""
             targetResourceKey := rel.object_resource.getD ""
             relationKey := rel.key.getD "" }
    else none)

/-- `${sourceResourceKey}:${relation.key}:${targetResourceKey}`
(apply.tsx line 218 and line 265). -/
def mkMappingKey (s relKey t : String) : String :=
  s ++ ":" ++ relKey ++ ":" ++ t

/-- `buildRelationMappings` (apply.tsx lines 206–231), as the insertion-order
list of `Map.set` calls. -/
def buildRelationMappings (relations : List ResourceRelation) :
    List (String × TerraformRelationMapping) :=
  relations.map (fun r =>
    (mkMappingKey r.sourceResourceKey r.relationKey r.targetResourceKey,
     { relationKey := r.relationKey
       sourceResource := r.sourceResourceKey
       targetResource := r.targetResourceKey
       terraformResourceName := r.sourceResourceKey ++ "_" ++ r.targetResourceKey }))

/-- JS `Map.get` over the insertion list: the last `set` for a key wins. -/
def mappingsGet (m : List (String × TerraformRelationMapping)) (k : String) :
    Option TerraformRelationMapping :=
  (m.reverse.find? (fun p => p.1 == k)).map (fun p => p.2)

/-- The body of the innermost loop of `generateDerivations`
(apply.tsx lines 250–297) for one grant rule: either a synthesized
derivation or (on a lookup miss) a warning; grants with missing fields are
skipped silently (lines 251–257). -/
def processGrant (relationMappings : List (String × TerraformRelationMapping))
    (targetResourceKey targetRoleKey : String) (g : GrantInfo) :
    Option RoleDerivationData × List String :=
  if !(truthyO g.role) || !(truthyO g.on_resource) || !(truthyO g.linked_by_relation) then
    (none, [])
  else
    let sourceRoleKey := g.role.getD ""
    let sourceResourceKey := g.on_resource.getD ""
    let relationKey := g.linked_by_relation.getD ""
    let mappingKey := mkMappingKey sourceResourceKey relationKey targetResourceKey
    match mappingsGet relationMappings mappingKey with
    | none => (none, ["Could not find relation mapping for " ++ mappingKey])
    | some relationMapping =>
      (some { id := createDerivationId sourceRoleKey targetRoleKey
              role := sourceRoleKey
              on_resource := sourceResourceKey
              to_role := targetRoleKey
              resource := targetResourceKey
              linked_by := relationMapping.terraformResourceName
              dependencies :=
                ["permitio_role." ++ sourceRoleKey,
                 "permitio_resource." ++ sourceResourceKey,
                 "permitio_role." ++ targetRoleKey,
                 "permitio_resource." ++ targetResourceKey,
                 "permitio_relation." ++ relationMapping.terraformResourceName] },
       [])

def processGrants (m : List (String × TerraformRelationMapping))
    (tRes tRole : String) : List GrantInfo → List RoleDerivationData × List String
  | [] => ([], [])
  | g :: rest =>
    let h := processGrant m tRes tRole g
    let r := processGrants m tRes tRole rest
    ((match h.1 with | some d => [d] | none => []) ++ r.1, h.2 ++ r.2)

/-- The role loop (apply.tsx lines 247–298): roles with a falsy key or no
grant rules are skipped (line 248). -/
def processRoles (m : List (String × TerraformRelationMapping))
    (tRes : String) : List ResourceRole → List RoleDerivationData × List String
  | [] => ([], [])
  | role :: rest =>
    if !(truthyO role.key) || role.granted_to_users_with_role.length == 0 then
      processRoles m tRes rest
    else
      let h := processGrants m tRes (role.key.getD "") role.granted_to_users_with_role
      let r := processRoles m tRes rest
      (h.1 ++ r.1, h.2 ++ r.2)

/-- The outer `resourceMap` loop of `generateDerivations`
(apply.tsx lines 246–299). -/
def derivationsLoop (relationMappings : List (String × TerraformRelationMapping)) :
    List (String × ResourceData) → List RoleDerivationData × List String
  | [] => ([], [])
  | p :: rest =>
    let h := processRoles relationMappings p.1 p.2.roles
    let r := derivationsLoop relationMappings rest
    (h.1 ++ r.1, h.2 ++ r.2)

/-- `generateDerivations` (apply.tsx lines 239–302). -/
def generateDerivations (resourceMap : List (String × ResourceData)) :
    List RoleDerivationData × List String :=
  derivationsLoop (buildRelationMappings (getAllResourceRelations resourceMap)) resourceMap

end RoleDerivationGenerator

namespace UserSetGenerator

/-- The render model of part_000's `UserSetGenerator` (lines 13–19); `name`
and `conditions` stay optional because the code copies them unchecked. -/
structure UserSetData where
  key : String
  name : Option String
  description : Option String
  conditions : Option String
  resource : String
deriving DecidableEq

/-- The `.map` of part_000 lines 40–49. -/
def mkUserSetData (s : ConditionSet) : UserSetData :=
  { key := createSafeId [s.key.getD ""]
    name := s.name
    description := s.description
    conditions := s.conditions
    resource := s.resource_id.getD "" }

/-- `validSets` of part_000's `UserSetGenerator.generateHCL` (lines 38–49):
filter by type only — no key/name validation, no warnings. -/
def validSets (conditionSets : List ConditionSet) : List UserSetData :=
  (conditionSets.filter (fun s => s.type == "userset")).map mkUserSetData

/-- `UserSetGenerator.generateHCL` (part_000 lines 34–58);
the Handlebars template is a parameter. -/
def generateHCL (template : List UserSetData → String)
    (conditionSetsList : Except String (List ConditionSet)) : String × List String :=
  match conditionSetsList with
  | .error e => ("", ["Failed to export user sets: " ++ e])
  | .ok sets =>
    let v := validSets sets
    if v.length == 0 then ("", [])
    else ("\n# User Sets\n" ++ template v, [])

end UserSetGenerator

namespace ConditionSetGeneratorStrict

/-- A condition-set rule as the strict `ConditionSetGenerator` (part_001,
first implementation) declares it: the three fields are required strings. -/
structure ConditionSetRule where
  user_set : String
  resource_set : String
  permission : String
deriving DecidableEq

structure ConditionSetRuleData where
  key : String
  userSet : String
  resourceSet : String
  permission : String
  isAutogenerated : Bool
deriving DecidableEq

/-- `processConditionSetRule` (part_001 lines 57–96): a rule referencing an
autogenerated (`__autogen_`-prefixed) user or resource set that is absent
from the fetched sets is dropped (silently, `null`). -/
def processConditionSetRule (rule : ConditionSetRule)
    (availableUserSets availableResourceSets : List String) :
    Option ConditionSetRuleData :=
  let userSetKey := rule.user_set
  let resourceSetKey := rule.resource_set
  let permissionKey := rule.permission
  let isUserSetAutogen := strStartsWith userSetKey "__autogen_"
  if isUserSetAutogen && !(availableUserSets.contains userSetKey) then none
  else
    let isResourceSetAutogen := strStartsWith resourceSetKey "__autogen_"
    if isResourceSetAutogen && !(availableResourceSets.contains resourceSetKey) then
      none
    else
      some { key := createSafeId [userSetKey] ++ "_" ++
                    createSafeId [resourceSetKey] ++ "_" ++
                    createSafeId [permissionKey]
             userSet := userSetKey
             resourceSet := resourceSetKey
             permission := permissionKey
             isAutogenerated := isUserSetAutogen || isResourceSetAutogen }

/-- The available-set keys (part_001 lines 141–150): keys of the fetched
condition sets of one type (an absent key is never equal to a rule's
string key, so it contributes nothing to the JS `Set`). -/
def availableKeys (sets : List ConditionSet) (ty : String) : List String :=
  (sets.filter (fun s => s.type == ty)).filterMap (fun s => s.key)

/-- `validRules` (part_001 lines 157–165). -/
def validRules (rules : List ConditionSetRule)
    (availableUserSets availableResourceSets : List String) :
    List ConditionSetRuleData :=
  rules.filterMap
    (fun r => processConditionSetRule r availableUserSets availableResourceSets)

/-- `perPage` of the pagination loop (part_001 line 113). -/
def perPage : Nat := 100

/-- The pagination loop of `generateHCL` (part_001 lines 110–139).
`pages` maps a page number to that page's results; `fuel` bounds the
iteration (the JS `while` has no static bound).  Returns the accumulated
records and the number of list requests issued. -/
def fetchAllPages (pages : Nat → List ConditionSetRule) :
    Nat → Nat → List ConditionSetRule × Nat
  | 0, _ => ([], 0)
  | fuel + 1, currentPage =>
    let pageResults := pages currentPage
    if pageResults.length > 0 then
      if pageResults.length < perPage then (pageResults, 1)
      else
        let r := fetchAllPages pages fuel (currentPage + 1)
        (pageResults ++ r.1, r.2 + 1)
    else ([], 1)

/-- The whole fetch: start at page 1 (part_001 line 112). -/
def fetchAllConditionSetRules (pages : Nat → List ConditionSetRule) (fuel : Nat) :
    List ConditionSetRule × Nat :=
  fetchAllPages pages fuel 1

/-- The fake paginated source of the pagination claim:
pages of sizes 100, 100, 37, then nothing. -/
def dummyRule : ConditionSetRule :=
  { user_set := "u", resource_set := "r", permission := "p" }

def fakePages : Nat → List ConditionSetRule
  | 1 => List.replicate 100 dummyRule
  | 2 => List.replicate 100 dummyRule
  | 3 => List.replicate 37 dummyRule
  | _ => []

end ConditionSetGeneratorStrict

theorem data_append (a b : String) : (a ++ b).data = a.data ++ b.data := rfl

theorem sanitizeChar_idem (c : Char) : sanitizeChar (sanitizeChar c) = sanitizeChar c := by
  unfold sanitizeChar
  by_cases h : (c.isAlphanum || c == '_') = true
  · simp [h]
  · simp [h]

theorem sanitizeChar_safe (c : Char) :
    ((sanitizeChar c).isAlphanum || sanitizeChar c == '_') = true := by
  unfold sanitizeChar
  by_cases h : (c.isAlphanum || c == '_') = true
  · simp [h]
  · simp [h]

theorem replaceUnsafe_idem (s : String) :
    replaceUnsafe (replaceUnsafe s) = replaceUnsafe s := by
  unfold replaceUnsafe
  simp [List.map_map, Function.comp_def, sanitizeChar_idem]

theorem createSafeId_singleton (x : String) : createSafeId [x] = replaceUnsafe x := by
  unfold createSafeId
  by_cases h : (replaceUnsafe x != "") = true
  · simp [List.filter, h, joinUnderscore]
  · simp only [List.map, List.filter, h]
    simp only [Bool.not_eq_true, bne_eq_false_iff_eq] at h
    simp [joinUnderscore, h]

theorem createSafeId_idem (x : String) :
    createSafeId [createSafeId [x]] = createSafeId [x] := by
  simp [createSafeId_singleton, replaceUnsafe_idem]

theorem mem_data_joinUnderscore {l : List String} {c : Char}
    (hc : c ∈ (joinUnderscore l).data)
    (hl : ∀ p ∈ l, ∀ d ∈ p.data, (d.isAlphanum || d == '_') = true) :
    (c.isAlphanum || c == '_') = true := by
  induction l with
  | nil => simp [joinUnderscore] at hc
  | cons p rest ih =>
    cases rest with
    | nil =>
      simp only [joinUnderscore] at hc
      exact hl p (by simp) c hc
    | cons q rest2 =>
      simp only [joinUnderscore, data_append] at hc
      rcases List.mem_append.mp hc with h1 | h2
      · rcases List.mem_append.mp h1 with ha | hb
        · exact hl p (by simp) c ha
        · have : c = '_' := by simpa using hb
          subst this; decide
      · exact ih h2 (fun r hr d hd => hl r (List.mem_cons_of_mem _ hr) d hd)

theorem createSafeId_charset (parts : List String) (c : Char)
    (hc : c ∈ (createSafeId parts).data) :
    (c.isAlphanum || c == '_') = true := by
  unfold createSafeId at hc
  refine mem_data_joinUnderscore hc ?_
  intro p hp d hd
  have hp2 := List.mem_filter.mp hp
  rcases List.mem_map.mp hp2.1 with ⟨orig, _, rfl⟩
  unfold replaceUnsafe at hd
  rcases List.mem_map.mp hd with ⟨e, _, rfl⟩
  exact sanitizeChar_safe e

theorem str_append_assoc (a b c : String) : a ++ b ++ c = a ++ (b ++ c) := by
  cases a with
  | mk x =>
    cases b with
    | mk y =>
      cases c with
      | mk z => exact congrArg String.mk (List.append_assoc x y z)

/-- C2: the sanitizer `createSafeId` is idempotent on a single string, its
output only contains characters of `[A-Za-z0-9_]`, and
`createSafeId("a-b", "c d") = "a_b_c_d"`.  (It is a pure function of its
parts, so determinism is the embedding itself.) -/
theorem claim_C2_sanitizer :
    (∀ x : String, createSafeId [createSafeId [x]] = createSafeId [x]) ∧
    (∀ parts : List String, ∀ c ∈ (createSafeId parts).data,
      (c.isAlphanum || c == '_') = true) ∧
    createSafeId ["a-b", "c d"] = "a_b_c_d" := by
  refine ⟨createSafeId_idem, ?_, by rfl⟩
  intro parts c hc
  exact createSafeId_charset parts c hc

/-- C2 witness: the idempotence and character-set facts instantiated at
concrete inputs. -/
theorem claim_C2_sanitizer_witness :
    createSafeId [createSafeId ["a b"]] = createSafeId ["a b"] ∧
    ('a'.isAlphanum || 'a' == '_') = true :=
  ⟨claim_C2_sanitizer.1 "a b",
   claim_C2_sanitizer.2.1 ["a-b"] 'a' (by decide)⟩

/-- C5 counterexample: `createDerivationId` lowercases after sanitizing, so
for source role "Admin" and target role "User" the synthesized identifier
is "admin_to_user", not `sanitize("Admin") ++ "_to_" ++ sanitize("User")`
(which is "Admin_to_User"). -/
theorem claim_C5_counterexample :
    createDerivationId "Admin" "User" = "admin_to_user" ∧
    createDerivationId "Admin" "User" ≠
      createSafeId ["Admin"] ++ "_to_" ++ createSafeId ["User"] := by
  exact ⟨by rfl, by decide⟩

/-- C5 amended: the synthesized derivation identifier equals the
ASCII-lowercased §4.1 sanitization of the source role, then `"_to_"`, then
the ASCII-lowercased sanitization of the target role. -/
theorem claim_C5_amended (s t : String) :
    createDerivationId s t =
      lowerAscii (createSafeId [s]) ++ "_to_" ++ lowerAscii (createSafeId [t]) := by
  simp [createDerivationId, sanitizeId, createSafeId_singleton]

/-- C6: the condition-set-rule fetch uses page size 100 and, on a fake
paginated source returning pages of sizes [100, 100, 37], accumulates
exactly 237 records while issuing exactly 3 list requests. -/
theorem claim_C6_pagination :
    ConditionSetGeneratorStrict.perPage = 100 ∧
    (ConditionSetGeneratorStrict.fetchAllConditionSetRules
        ConditionSetGeneratorStrict.fakePages 10).1.length = 237 ∧
    (ConditionSetGeneratorStrict.fetchAllConditionSetRules
        ConditionSetGeneratorStrict.fakePages 10).2 = 3 := by
  refine ⟨rfl, by rfl, by rfl⟩

/-- A user-set record with a missing `name` (all other fields present). -/
def badUserSet : ConditionSet :=
  { key := some "k1", name := none, type := "userset", description := none,
    conditions := some "true", resource_id := none }

/-- C7 counterexample: the standalone `UserSetGenerator` (part_000) maps
every fetched user set into the render model without validating `name` and
appends no warning — a record missing `name` is rendered, with zero
warnings, contradicting the claim as stated. -/
theorem claim_C7_counterexample :
    (UserSetGenerator.validSets [badUserSet]).length = 1 ∧
    UserSetGenerator.generateHCL (fun _ => "BLOCK") (.ok [badUserSet]) =
      ("\n# User Sets\nBLOCK", []) := by
  exact ⟨by rfl, by rfl⟩

/-- C7 amended: in the export command's own condition-set phase
(export.tsx), the user-set loop renders exactly the records with truthy
`key` and `name`, once each, and appends exactly one warning for each
invalid record; the resource-set loop does the same with `resource_id`
also required.  (The standalone `UserSetGenerator` renders without this
validation.) -/
theorem claim_C7_amended :
    (∀ sets : List ConditionSet, userSetsProcess sets =
      ((sets.filter userSetValid).map renderUserSet,
       (sets.filter (fun s => !userSetValid s)).map
         (fun s => "Invalid user set data: " ++ jsonStringifySet s))) ∧
    (∀ sets : List ConditionSet, resourceSetsProcess sets =
      ((sets.filter resourceSetValid).map renderResourceSet,
       (sets.filter (fun s => !resourceSetValid s)).map
         (fun s => "Invalid resource set data: " ++ jsonStringifySet s))) := by
  constructor
  · intro sets
    induction sets with
    | nil => rfl
    | cons s rest ih =>
      by_cases h : userSetValid s = true
      · simp [userSetsProcess, List.filter, h, ih]
      · simp only [Bool.not_eq_true] at h
        simp [userSetsProcess, List.filter, h, ih]
  · intro sets
    induction sets with
    | nil => rfl
    | cons s rest ih =>
      by_cases h : resourceSetValid s = true
      · simp [resourceSetsProcess, List.filter, h, ih]
      · simp only [Bool.not_eq_true] at h
        simp [resourceSetsProcess, List.filter, h, ih]

/-- C8: in the strict `ConditionSetGenerator` (part_001, first
implementation — the superseding variant per the spec), a fetched rule
whose user set or resource set is autogenerated (`__autogen_`-prefixed)
and absent from the fetched condition sets is processed to `null`, and
dropping every occurrence of such a rule from the listing leaves the
rendered rule list unchanged. -/
theorem claim_C8_stale_autogen (rule : ConditionSetGeneratorStrict.ConditionSetRule)
    (uSets rSets : List String)
    (h : (strStartsWith rule.user_set "__autogen_" = true ∧ rule.user_set ∉ uSets) ∨
         (strStartsWith rule.resource_set "__autogen_" = true ∧ rule.resource_set ∉ rSets)) :
    ConditionSetGeneratorStrict.processConditionSetRule rule uSets rSets = none ∧
    ∀ rules : List ConditionSetGeneratorStrict.ConditionSetRule,
      ConditionSetGeneratorStrict.validRules rules uSets rSets =
      ConditionSetGeneratorStrict.validRules
        (rules.filter (fun r => !(r == rule))) uSets rSets := by
  have hnone : ConditionSetGeneratorStrict.processConditionSetRule rule uSets rSets = none := by
    unfold ConditionSetGeneratorStrict.processConditionSetRule
    dsimp only
    split
    · rfl
    · split
      · rfl
      · next hc1 hc2 =>
        exfalso
        rcases h with ⟨h1, h2⟩ | ⟨h1, h2⟩
        · exact hc1 (by simp only [h1, Bool.true_and, Bool.not_eq_true']; simpa using h2)
        · exact hc2 (by simp only [h1, Bool.true_and, Bool.not_eq_true']; simpa using h2)
  refine ⟨hnone, ?_⟩
  intro rules
  induction rules with
  | nil => rfl
  | cons r rest ih =>
    by_cases hr : (r == rule) = true
    · have : r = rule := by simpa using hr
      subst this
      simp only [ConditionSetGeneratorStrict.validRules] at ih ⊢
      simp [List.filter_cons, List.filterMap_cons, hnone, ih]
    · have hfr : (r == rule) = false := by simpa using hr
      simp only [ConditionSetGeneratorStrict.validRules] at ih ⊢
      simp only [List.filter_cons, hfr, Bool.not_false, if_true]
      simp only [List.filterMap_cons]
      cases hpr : ConditionSetGeneratorStrict.processConditionSetRule r uSets rSets <;>
        simp [ih]

/-- The concrete stale rule of the C8 witness. -/
def staleRule : ConditionSetGeneratorStrict.ConditionSetRule :=
  { user_set := "__autogen_x", resource_set := "rs", permission := "p" }

/-- C8 witness: the theorem applied to a rule whose autogenerated user set
is absent from the fetched sets. -/
theorem claim_C8_stale_autogen_witness :
    ConditionSetGeneratorStrict.processConditionSetRule staleRule [] ["rs"] = none ∧
    ConditionSetGeneratorStrict.validRules [staleRule] [] ["rs"] =
      ConditionSetGeneratorStrict.validRules
        ([staleRule].filter (fun r => !(r == staleRule))) [] ["rs"] := by
  have h := claim_C8_stale_autogen staleRule [] ["rs"] (Or.inl ⟨by decide, by decide⟩)
  exact ⟨h.1, h.2 [staleRule]⟩

/-- C3: the resource list rendered as `permitio_resource` blocks is the
`__user`-free filter (so no block is ever produced for the `__user`
pseudo-resource), while `UserAttributesGenerator.generateHCL` is a function
of the API's answer for exactly the `__user` pseudo-resource: two APIs that
agree on `__user` yield identical user-attribute output. -/
theorem claim_C3_user_pseudo_resource :
    (∀ resources : List Resource, ∀ r ∈ validResources resources, r.key ≠ "__user") ∧
    (∀ (template : List UserAttributesGenerator.UserAttributeData → String)
       (g1 g2 : String → Except String Resource),
       g1 "__user" = g2 "__user" →
       UserAttributesGenerator.generateHCL template g1 =
         UserAttributesGenerator.generateHCL template g2) := by
  constructor
  · intro rs r hr
    have h := (List.mem_filter.mp hr).2
    simpa using h
  · intro t g1 g2 h
    unfold UserAttributesGenerator.generateHCL UserAttributesGenerator.getUserAttributes
    rw [h]

/-- A sample resource for the C3 witness. -/
def docResource : Resource :=
  { key := "doc", name := "Doc", description := none, urn := none,
    actions := [], attributes := [] }

/-- C3 witness: the exclusion fact at a concrete resource list and the
`__user`-dependence fact at two concrete APIs agreeing on `__user`. -/
theorem claim_C3_witness :
    docResource.key ≠ "__user" ∧
    UserAttributesGenerator.generateHCL (fun _ => "X") (fun _ => .error "e") =
      UserAttributesGenerator.generateHCL (fun _ => "X")
        (fun s => if s == "__user" then .error "e" else .ok docResource) := by
  constructor
  · exact claim_C3_user_pseudo_resource.1 [docResource] docResource (by decide)
  · exact claim_C3_user_pseudo_resource.2 (fun _ => "X") (fun _ => .error "e")
      (fun s => if s == "__user" then .error "e" else .ok docResource) rfl

/-- C9: every user attribute emitted by the generator's processing chain
comes from a non-built-in key whose description does not mark it built-in,
and is built by the `.map` stage (so its type is the table-normalized
type); the chain's warnings are exactly those `normalizeAttributeType`
appends for the kept entries; the type table maps
string→string, number→number, boolean→bool, bool→bool, array→array,
object→json, json→json, time→string; and any type whose lowercasing is
outside the table yields "string" plus exactly one warning. -/
theorem claim_C9_user_attributes :
    (∀ (attrs : List (String × AttributeData))
       (d : UserAttributesGenerator.UserAttributeData),
       d ∈ (UserAttributesGenerator.processUserAttributes attrs).1 →
       d.key ∉ UserAttributesGenerator.BUILTIN_USER_ATTRIBUTES ∧
       ∃ a, (d.key, a) ∈ attrs ∧
         UserAttributesGenerator.descriptionMarksBuiltin a.description = false ∧
         d = UserAttributesGenerator.mkAttrData (d.key, a)) ∧
    (∀ attrs : List (String × AttributeData),
       (UserAttributesGenerator.processUserAttributes attrs).2 =
         ((attrs.filter UserAttributesGenerator.keepAttr).map
           (fun p => (UserAttributesGenerator.normalizeAttributeType p.2.type).2)).flatten) ∧
    UserAttributesGenerator.normalizeAttributeType "string" = ("string", []) ∧
    UserAttributesGenerator.normalizeAttributeType "number" = ("number", []) ∧
    UserAttributesGenerator.normalizeAttributeType "boolean" = ("bool", []) ∧
    UserAttributesGenerator.normalizeAttributeType "bool" = ("bool", []) ∧
    UserAttributesGenerator.normalizeAttributeType "array" = ("array", []) ∧
    UserAttributesGenerator.normalizeAttributeType "object" = ("json", []) ∧
    UserAttributesGenerator.normalizeAttributeType "json" = ("json", []) ∧
    UserAttributesGenerator.normalizeAttributeType "time" = ("string", []) ∧
    (∀ t : String,
       UserAttributesGenerator.typeMap (lowerAscii t) = none →
       UserAttributesGenerator.normalizeAttributeType t =
         ("string", ["Unknown attribute type: " ++ t ++ ", using 'string' as default"])) := by
  refine ⟨?_, ?_, rfl, rfl, rfl, rfl, rfl, rfl, rfl, rfl, ?_⟩
  · intro attrs d hd
    induction attrs with
    | nil => simp [UserAttributesGenerator.processUserAttributes] at hd
    | cons p rest ih =>
      by_cases hk : UserAttributesGenerator.keepAttr p = true
      · simp only [UserAttributesGenerator.processUserAttributes, hk, if_true,
          List.mem_cons] at hd
        rcases hd with hd | hd
        · subst hd
          have hk2 := hk
          unfold UserAttributesGenerator.keepAttr at hk2
          simp only [Bool.and_eq_true, Bool.not_eq_true'] at hk2
          constructor
          · have := hk2.1
            simpa using this
          · refine ⟨p.2, ?_, hk2.2, rfl⟩
            simp [UserAttributesGenerator.mkAttrData]
        · rcases ih hd with ⟨h1, a, ha, h2, h3⟩
          exact ⟨h1, a, List.mem_cons_of_mem _ ha, h2, h3⟩
      · simp only [Bool.not_eq_true] at hk
        simp only [UserAttributesGenerator.processUserAttributes, hk,
          Bool.false_eq_true, if_false] at hd
        rcases ih hd with ⟨h1, a, ha, h2, h3⟩
        exact ⟨h1, a, List.mem_cons_of_mem _ ha, h2, h3⟩
  · intro attrs
    induction attrs with
    | nil => rfl
    | cons p rest ih =>
      by_cases hk : UserAttributesGenerator.keepAttr p = true
      · simp [UserAttributesGenerator.processUserAttributes, hk, List.filter_cons, ih]
      · simp only [Bool.not_eq_true] at hk
        simp [UserAttributesGenerator.processUserAttributes, hk, List.filter_cons, ih]
  · intro t ht
    unfold UserAttributesGenerator.normalizeAttributeType
    rw [ht]

/-- C9 witness: the processing facts at a one-attribute map and the
unknown-type clause at the concrete type "fancy". -/
theorem claim_C9_user_attributes_witness :
    ("age" ∉ UserAttributesGenerator.BUILTIN_USER_ATTRIBUTES ∧
      ∃ a, (("age", a) : String × AttributeData) ∈
          ([("age", ⟨"number", none⟩)] : List (String × AttributeData)) ∧
        UserAttributesGenerator.descriptionMarksBuiltin a.description = false ∧
        (⟨"user_age", "age", "number", ""⟩ :
            UserAttributesGenerator.UserAttributeData) =
          UserAttributesGenerator.mkAttrData ("age", a)) ∧
    UserAttributesGenerator.normalizeAttributeType "fancy" =
      ("string", ["Unknown attribute type: fancy, using 'string' as default"]) := by
  obtain ⟨h1, _, _, _, _, _, _, _, _, _, h11⟩ := claim_C9_user_attributes
  constructor
  · exact h1 [("age", ⟨"number", none⟩)] ⟨"user_age", "age", "number", ""⟩ (by decide)
  · exact h11 "fancy" (by rfl)

theorem processGrant_deps
    (m : List (String × RoleDerivationGenerator.TerraformRelationMapping))
    (tRes tRole : String) (g : RoleDerivationGenerator.GrantInfo)
    (d : RoleDerivationGenerator.RoleDerivationData)
    (h : (RoleDerivationGenerator.processGrant m tRes tRole g).1 = some d) :
    d.dependencies =
      ["permitio_role." ++ d.role, "permitio_resource." ++ d.on_resource,
       "permitio_role." ++ d.to_role, "permitio_resource." ++ d.resource,
       "permitio_relation." ++ d.linked_by] := by
  unfold RoleDerivationGenerator.processGrant at h
  dsimp only at h
  split at h
  · simp at h
  · split at h
    · simp at h
    · simp only [Option.some.injEq] at h
      subst h
      rfl

theorem processGrants_deps
    (m : List (String × RoleDerivationGenerator.TerraformRelationMapping))
    (tRes tRole : String) (gs : List RoleDerivationGenerator.GrantInfo)
    (d : RoleDerivationGenerator.RoleDerivationData)
    (h : d ∈ (RoleDerivationGenerator.processGrants m tRes tRole gs).1) :
    d.dependencies =
      ["permitio_role." ++ d.role, "permitio_resource." ++ d.on_resource,
       "permitio_role." ++ d.to_role, "permitio_resource." ++ d.resource,
       "permitio_relation." ++ d.linked_by] := by
  induction gs with
  | nil => simp [RoleDerivationGenerator.processGrants] at h
  | cons g rest ih =>
    unfold RoleDerivationGenerator.processGrants at h
    dsimp only at h
    rcases List.mem_append.mp h with h1 | h2
    · cases hpg : (RoleDerivationGenerator.processGrant m tRes tRole g).1 with
      | none => rw [hpg] at h1; simp at h1
      | some d2 =>
        rw [hpg] at h1
        simp only [List.mem_singleton] at h1
        subst h1
        exact processGrant_deps m tRes tRole g d hpg
    · exact ih h2

theorem processRoles_deps
    (m : List (String × RoleDerivationGenerator.TerraformRelationMapping))
    (tRes : String) (roles : List RoleDerivationGenerator.ResourceRole)
    (d : RoleDerivationGenerator.RoleDerivationData)
    (h : d ∈ (RoleDerivationGenerator.processRoles m tRes roles).1) :
    d.dependencies =
      ["permitio_role." ++ d.role, "permitio_resource." ++ d.on_resource,
       "permitio_role." ++ d.to_role, "permitio_resource." ++ d.resource,
       "permitio_relation." ++ d.linked_by] := by
  induction roles with
  | nil => simp [RoleDerivationGenerator.processRoles] at h
  | cons role rest ih =>
    unfold RoleDerivationGenerator.processRoles at h
    split at h
    · exact ih h
    · dsimp only at h
      rcases List.mem_append.mp h with h1 | h2
      · exact processGrants_deps m tRes (role.key.getD "")
          role.granted_to_users_with_role d h1
      · exact ih h2

theorem derivationsLoop_deps
    (m : List (String × RoleDerivationGenerator.TerraformRelationMapping))
    (resourceMap : List (String × RoleDerivationGenerator.ResourceData))
    (d : RoleDerivationGenerator.RoleDerivationData)
    (h : d ∈ (RoleDerivationGenerator.derivationsLoop m resourceMap).1) :
    d.dependencies =
      ["permitio_role." ++ d.role, "permitio_resource." ++ d.on_resource,
       "permitio_role." ++ d.to_role, "permitio_resource." ++ d.resource,
       "permitio_relation." ++ d.linked_by] := by
  induction resourceMap with
  | nil => simp [RoleDerivationGenerator.derivationsLoop] at h
  | cons p rest ih =>
    unfold RoleDerivationGenerator.derivationsLoop at h
    dsimp only at h
    rcases List.mem_append.mp h with h1 | h2
    · exact processRoles_deps m p.1 p.2.roles d h1
    · exact ih h2

/-- C4: every role derivation emitted by `generateDerivations` carries the
dependency list [source-role block, source-resource block, target-role
block, target-resource block, relation block], in that exact order (the
derivation's `role`/`on_resource` are the grant's source role A on R1, its
`to_role`/`resource` the derived role B on R2, `linked_by` the relation
block resolved for `(R1, rel, R2)`); and a grant whose `(R1, rel, R2)`
lookup misses the relation mappings produces no derivation and appends the
"Could not find relation mapping" warning. -/
theorem claim_C4_derivation_dependency_order :
    (∀ (resourceMap : List (String × RoleDerivationGenerator.ResourceData))
       (d : RoleDerivationGenerator.RoleDerivationData),
       d ∈ (RoleDerivationGenerator.generateDerivations resourceMap).1 →
       d.dependencies =
         ["permitio_role." ++ d.role, "permitio_resource." ++ d.on_resource,
          "permitio_role." ++ d.to_role, "permitio_resource." ++ d.resource,
          "permitio_relation." ++ d.linked_by]) ∧
    (∀ (m : List (String × RoleDerivationGenerator.TerraformRelationMapping))
       (tRes tRole : String) (g : RoleDerivationGenerator.GrantInfo),
       truthyO g.role = true → truthyO g.on_resource = true →
       truthyO g.linked_by_relation = true →
       RoleDerivationGenerator.mappingsGet m
         (RoleDerivationGenerator.mkMappingKey (g.on_resource.getD "")
           (g.linked_by_relation.getD "") tRes) = none →
       RoleDerivationGenerator.processGrant m tRes tRole g =
         (none, ["Could not find relation mapping for " ++
           RoleDerivationGenerator.mkMappingKey (g.on_resource.getD "")
             (g.linked_by_relation.getD "") tRes])) := by
  constructor
  · intro resourceMap d h
    exact derivationsLoop_deps _ resourceMap d h
  · intro m tRes tRole g h1 h2 h3 hm
    unfold RoleDerivationGenerator.processGrant
    dsimp only
    rw [h1, h2, h3, hm]
    simp

/-- The concrete resource map of the C4 witness: role `b` on resource `r2`
granted via role `a` on `r1`, linked by relation `rel` (subject `r1`,
object `r2`). -/
def witnessResourceMap : List (String × RoleDerivationGenerator.ResourceData) :=
  [("r2",
    { roles := [{ key := some "b",
                  granted_to_users_with_role :=
                    [{ role := some "a", on_resource := some "r1",
                       linked_by_relation := some "rel" }] }],
      relations := [{ key := some "rel", subject_resource := some "r1",
                      object_resource := some "r2" }] })]

/-- The derivation that map produces. -/
def witnessDerivation : RoleDerivationGenerator.RoleDerivationData :=
  { id := "a_to_b", role := "a", on_resource := "r1", to_role := "b",
    resource := "r2", linked_by := "r1_r2",
    dependencies := ["permitio_role.a", "permitio_resource.r1", "permitio_role.b",
                     "permitio_resource.r2", "permitio_relation.r1_r2"] }

/-- C4 witness: the ordering fact at the concrete map above; the omission
fact at an empty relation-mapping table. -/
theorem claim_C4_witness :
    witnessDerivation.dependencies =
      ["permitio_role." ++ witnessDerivation.role,
       "permitio_resource." ++ witnessDerivation.on_resource,
       "permitio_role." ++ witnessDerivation.to_role,
       "permitio_resource." ++ witnessDerivation.resource,
       "permitio_relation." ++ witnessDerivation.linked_by] ∧
    RoleDerivationGenerator.processGrant [] "r2" "b"
      { role := some "a", on_resource := some "r1", linked_by_relation := some "rel" } =
      (none, ["Could not find relation mapping for " ++
        RoleDerivationGenerator.mkMappingKey "r1" "rel" "r2"]) := by
  constructor
  · exact claim_C4_derivation_dependency_order.1 witnessResourceMap
      witnessDerivation (by decide)
  · exact claim_C4_derivation_dependency_order.2 [] "r2" "b"
      { role := some "a", on_resource := some "r1", linked_by_relation := some "rel" }
      rfl rfl rfl rfl

/-- An API whose every endpoint succeeds with an empty listing. -/
def apiAllOk : PermitApi :=
  { resourcesList := .ok []
    resourceRelationsList := fun _ => .ok []
    rolesList := .ok []
    resourceAttributesList := fun _ => .ok []
    conditionSetsList := .ok []
    conditionSetRulesList := .ok [] }

/-- A validator that accepts any key with environment scope and no scope record. -/
def validateOk : String → ValidationResult := fun _ => { valid := true, error := none, scope := none }

/-- A sink write that always succeeds. -/
def writeOk : String → String → Except String Unit := fun _ _ => .ok ()

/-- The all-ok API with a failing Resources listing. -/
def apiResourcesFail : PermitApi := { apiAllOk with resourcesList := .error "boom" }

/-- The all-ok API with a failing Roles listing. -/
def apiRolesFail : PermitApi := { apiAllOk with rolesList := .error "boom" }

theorem relationsLoop_warn (relList : String → Except String (List Relation))
    (rs : List Resource) (r : Resource) (e : String)
    (hr : r ∈ rs) (he : relList r.key = .error e) :
    ∃ e2, ("Failed to export resource relations: " ++ e2) ∈ (relationsLoop relList rs).2 := by
  induction rs with
  | nil => simp at hr
  | cons a rest ih =>
    unfold relationsLoop
    cases hae : relList a.key with
    | error e3 => exact ⟨e3, by simp⟩
    | ok rels =>
      dsimp only
      rcases List.mem_cons.mp hr with h1 | h2
      · subst h1
        rw [hae] at he
        cases he
      · exact ih h2

/-- C1 counterexample: with a present key that passes scope validation, a
failure of the Resources listing — itself a generator phase per the claim —
is not converted to a warning: the run ends in the error state with no
warnings and no completion. -/
theorem claim_C1_counterexample :
    exportConfig (some "k") none validateOk apiResourcesFail none writeOk =
      .error "Failed to export configuration: boom" [] ∧
    ∀ hcl w, exportConfig (some "k") none validateOk apiResourcesFail none writeOk ≠
      .complete hcl w := by
  refine ⟨rfl, ?_⟩
  intro hcl w h
  rw [show exportConfig (some "k") none validateOk apiResourcesFail none writeOk =
      .error "Failed to export configuration: boom" [] from rfl] at h
  cases h

theorem exportConfig_reduces
    (apiKey authToken : Option String) (validate : String → ValidationResult)
    (api : PermitApi) (file : Option String)
    (write : String → String → Except String Unit) (k : String)
    (resources : List Resource)
    (hpick : pickKey apiKey authToken = some k) (hk : (k != "") = true)
    (hvalid : (validate k).valid = true) (herr : truthyO (validate k).error = false)
    (hres : api.resourcesList = .ok resources) :
    exportConfig apiKey authToken validate api file write =
      (if truthyO file then
        match write (file.getD "") (exportHcl k (validate k).scope api resources) with
        | .error e =>
          .error ("Failed to export configuration: " ++ e) (exportWarnings api resources)
        | .ok _ =>
          .complete (exportHcl k (validate k).scope api resources)
            (exportWarnings api resources)
       else
        .complete (exportHcl k (validate k).scope api resources)
          (exportWarnings api resources)) := by
  unfold exportConfig
  rw [hpick]
  have hks : truthyO (some k) = true := by simpa [truthyO] using hk
  simp only [hks, Option.getD_some, hvalid, herr, hres, Bool.not_true,
    Bool.false_eq_true, if_false, Bool.or_false]

/-- C1 amended: for a run whose credential resolves and passes scope
validation, a failure inside the relations, roles, user-attributes or
condition-sets phase is converted into an appended warning and the run
still completes (provided the Resources listing and the sink write
succeed); conversely the error state is reachable only from a missing
credential, failed scope validation, a failed Resources listing, or a
failed sink write. -/
theorem claim_C1_amended :
    (∀ (apiKey authToken : Option String) (validate : String → ValidationResult)
       (api : PermitApi) (file : Option String)
       (write : String → String → Except String Unit) (k : String)
       (resources : List Resource),
       pickKey apiKey authToken = some k → (k != "") = true →
       (validate k).valid = true → truthyO (validate k).error = false →
       api.resourcesList = .ok resources →
       (∀ f hcl, write f hcl = .ok ()) →
       exportConfig apiKey authToken validate api file write =
         .complete (exportHcl k (validate k).scope api resources)
                   (exportWarnings api resources) ∧
       (∀ e, api.rolesList = .error e →
         ("Failed to export roles: " ++ e) ∈ exportWarnings api resources) ∧
       (∀ e, api.resourceAttributesList "__user" = .error e →
         ("Failed to export user attributes: " ++ e) ∈ exportWarnings api resources) ∧
       (∀ e, api.conditionSetsList = .error e →
         ("Failed to export condition sets: " ++ e) ∈ exportWarnings api resources) ∧
       (∀ r e, r ∈ validResources resources →
         api.resourceRelationsList r.key = .error e →
         ∃ e2, ("Failed to export resource relations: " ++ e2) ∈
           exportWarnings api resources)) ∧
    (∀ (apiKey authToken : Option String) (validate : String → ValidationResult)
       (api : PermitApi) (file : Option String)
       (write : String → String → Except String Unit) (msg : String)
       (w : List String),
       exportConfig apiKey authToken validate api file write = .error msg w →
       truthyO (pickKey apiKey authToken) = false ∨
       (validate ((pickKey apiKey authToken).getD "")).valid = false ∨
       truthyO (validate ((pickKey apiKey authToken).getD "")).error = true ∨
       (∃ e, api.resourcesList = .error e) ∨
       (truthyO file = true ∧ ∃ e hcl, write (file.getD "") hcl = .error e)) := by
  constructor
  · intro apiKey authToken validate api file write k resources hpick hk hvalid herr hres hwrite
    refine ⟨?_, ?_, ?_, ?_, ?_⟩
    · rw [exportConfig_reduces apiKey authToken validate api file write k resources
        hpick hk hvalid herr hres]
      by_cases hf : truthyO file = true
      · simp [hf, hwrite]
      · simp only [Bool.not_eq_true] at hf
        simp [hf]
    · intro e he
      unfold exportWarnings rolesSection
      rw [he]
      simp
    · intro e he
      unfold exportWarnings userAttributesSection
      rw [he]
      simp
    · intro e he
      unfold exportWarnings conditionSetsSection
      rw [he]
      simp
    · intro r e hr he
      obtain ⟨e2, hmem⟩ := relationsLoop_warn api.resourceRelationsList
        (validResources resources) r e hr he
      exact ⟨e2, by
        unfold exportWarnings
        exact List.mem_append_left _ (List.mem_append_left _ (List.mem_append_left _ hmem))⟩
  · intro apiKey authToken validate api file write msg w hrun
    cases hp : pickKey apiKey authToken with
    | none =>
      left
      simp [hp, truthyO]
    | some k =>
      by_cases hk : (k != "") = true
      case neg =>
        left
        simp only [Bool.not_eq_true, bne_eq_false_iff_eq] at hk
        simp [hp, truthyO, hk]
      by_cases h2 : (validate k).valid = true
      case neg =>
        right; left
        simp only [Bool.not_eq_true] at h2
        simpa using h2
      by_cases h3 : truthyO (validate k).error = false
      case neg =>
        right; right; left
        simp only [Bool.not_eq_false] at h3
        simpa using h3
      cases hres : api.resourcesList with
      | error e => exact Or.inr (Or.inr (Or.inr (Or.inl ⟨e, rfl⟩)))
      | ok resources =>
        rw [exportConfig_reduces apiKey authToken validate api file write k resources
          hp hk h2 h3 hres] at hrun
        by_cases hf : truthyO file = true
        · rw [if_pos (by simpa using hf)] at hrun
          cases hw : write (file.getD "") (exportHcl k (validate k).scope api resources) with
          | error e => exact Or.inr (Or.inr (Or.inr (Or.inr ⟨hf, e, _, hw⟩)))
          | ok u =>
            rw [hw] at hrun
            cases hrun
        · simp only [Bool.not_eq_true] at hf
          rw [if_neg (by simp [hf])] at hrun
          cases hrun

/-- C1 witness: the completion-and-warning facts at a run whose Roles
listing fails, and the error characterization at a run whose Resources
listing fails. -/
theorem claim_C1_witness :
    (exportConfig (some "k") none validateOk apiRolesFail none writeOk =
      .complete (exportHcl "k" (validateOk "k").scope apiRolesFail [])
                (exportWarnings apiRolesFail []) ∧
     ("Failed to export roles: boom") ∈ exportWarnings apiRolesFail []) ∧
    (truthyO (pickKey (some "k") none) = false ∨
     (validateOk ((pickKey (some "k") none).getD "")).valid = false ∨
     truthyO (validateOk ((pickKey (some "k") none).getD "")).error = true ∨
     (∃ e, apiResourcesFail.resourcesList = .error e) ∨
     (truthyO (none : Option String) = true ∧
      ∃ e hcl, writeOk ((none : Option String).getD "") hcl = .error e)) := by
  constructor
  · obtain ⟨hcomp, hroles, _, _, _⟩ := claim_C1_amended.1 (some "k") none validateOk
      apiRolesFail none writeOk "k" [] rfl rfl rfl rfl rfl (fun _ _ => rfl)
    exact ⟨hcomp, hroles "boom" rfl⟩
  · exact claim_C1_amended.2 (some "k") none validateOk apiResourcesFail none writeOk
      "Failed to export configuration: boom" [] rfl

theorem exportHcl_decomp (k : String) (scope : Option Scope) (api : PermitApi)
    (resources : List Resource) :
    exportHcl k scope api resources =
      headerPre scope ++ (k ++ ("\"\n\x7d\n" ++ (resourcesSection resources ++
        ((relationsLoop api.resourceRelationsList (validResources resources)).1 ++
         ((rolesSection api.rolesList).1 ++
          ((userAttributesSection (api.resourceAttributesList "__user")).1 ++
           (conditionSetsSection api.conditionSetsList api.conditionSetRulesList).1)))))) := by
  simp only [exportHcl, header, str_append_assoc]

/-- C10: any run that reaches completion produced an artifact that embeds
the resolved credential verbatim as the provider block's `api_key` value:
the artifact is the fixed header up to `api_key = "`, then the key, then
the rest — and completion means that exact text went to the chosen sink. -/
theorem claim_C10_key_in_artifact
    (apiKey authToken : Option String) (validate : String → ValidationResult)
    (api : PermitApi) (file : Option String)
    (write : String → String → Except String Unit) (k hcl : String) (w : List String)
    (hpick : pickKey apiKey authToken = some k)
    (hrun : exportConfig apiKey authToken validate api file write = .complete hcl w) :
    ∃ post, hcl = headerPre (validate k).scope ++ (k ++ post) := by
  by_cases hk : (k != "") = true
  case neg =>
    exfalso
    simp only [Bool.not_eq_true, bne_eq_false_iff_eq] at hk
    unfold exportConfig at hrun
    rw [hpick] at hrun
    simp [truthyO, hk] at hrun
  by_cases h2 : (validate k).valid = true
  case neg =>
    exfalso
    simp only [Bool.not_eq_true] at h2
    unfold exportConfig at hrun
    rw [hpick] at hrun
    have hks : truthyO (some k) = true := by simpa [truthyO] using hk
    simp [hks, h2] at hrun
  by_cases h3 : truthyO (validate k).error = false
  case neg =>
    exfalso
    simp only [Bool.not_eq_false] at h3
    unfold exportConfig at hrun
    rw [hpick] at hrun
    have hks : truthyO (some k) = true := by simpa [truthyO] using hk
    simp [hks, h3] at hrun
  cases hres : api.resourcesList with
  | error e =>
    exfalso
    unfold exportConfig at hrun
    rw [hpick] at hrun
    have hks : truthyO (some k) = true := by simpa [truthyO] using hk
    simp [hks, h2, h3, hres] at hrun
  | ok resources =>
    rw [exportConfig_reduces apiKey authToken validate api file write k resources
      hpick hk h2 h3 hres] at hrun
    have hhcl : hcl = exportHcl k (validate k).scope api resources := by
      by_cases hf : truthyO file = true
      · rw [if_pos (by simpa using hf)] at hrun
        cases hw : write (file.getD "") (exportHcl k (validate k).scope api resources) with
        | error e =>
          rw [hw] at hrun
          cases hrun
        | ok u =>
          rw [hw] at hrun
          cases hrun
          rfl
      · simp only [Bool.not_eq_true] at hf
        rw [if_neg (by simp [hf])] at hrun
        cases hrun
        rfl
    subst hhcl
    exact ⟨"\"\n\x7d\n" ++ (resourcesSection resources ++
      ((relationsLoop api.resourceRelationsList (validResources resources)).1 ++
       ((rolesSection api.rolesList).1 ++
        ((userAttributesSection (api.resourceAttributesList "__user")).1 ++
         (conditionSetsSection api.conditionSetsList api.conditionSetRulesList).1)))),
      exportHcl_decomp k (validate k).scope api resources⟩

/-- C10 witness: the theorem applied to a concrete completed run with
credential "secret". -/
theorem claim_C10_witness :
    ∃ post, exportHcl "secret" (validateOk "secret").scope apiAllOk [] =
      headerPre (validateOk "secret").scope ++ ("secret" ++ post) :=
  claim_C10_key_in_artifact (some "secret") none validateOk apiAllOk none writeOk
    "secret" (exportHcl "secret" (validateOk "secret").scope apiAllOk [])
    (exportWarnings apiAllOk []) rfl rfl

end PermitCli
